import Mathlib

/-!
Verification of the KGTS site backend authentication, OTP and event/team
registration core.  The JavaScript source (Mongoose models, Express
controllers and middleware) is shallowly embedded: documents become
structures, the Mongo store becomes explicit lists threaded through each
handler, and every handler becomes a pure function returning either an
`ApiError` (the thrown error) or its result together with the updated store.
-/

namespace KGTS

/-! ### External primitives (bcrypt, jsonwebtoken, mailer)

These libraries are collaborators outside the repository; they are modelled
deterministically from the contracts the spec states for them. -/

/-- Modelled from the spec: the external bcrypt hash primitive used by
`CredentialStore` (one-way, salted, cost-factored).  The model prefixes the
plaintext with a bcrypt header so hashes verify deterministically and never
equal the plaintext. -/
def bcryptHash (cost : Nat) (plain : String) : String :=
  "$2b$" ++ toString cost ++ "$" ++ plain

/-- Modelled from the spec: `bcrypt.compare` — deterministic verification
against a hash produced at cost 10 (the cost every call site uses). -/
def bcryptCompare (plain hashed : String) : Bool :=
  hashed == bcryptHash 10 plain

/-- Modelled from the spec: a token produced by the external `jsonwebtoken`
library.  Signing is deterministic in the payload, secret, issue time and
lifetime, and the string encoding is injective, so literal string equality of
two encoded tokens is modelled by structural equality of this record. -/
structure Jwt (P : Type) where
  payload : P
  secret : String
  iat : Nat
  expiresIn : Nat
deriving DecidableEq, Repr

/-- The two error classes `jsonwebtoken` throws that the middleware
distinguishes (`JsonWebTokenError` for a bad signature or malformed token,
`TokenExpiredError` for expiry). -/
inductive JwtError where
  | jsonWebTokenError
  | tokenExpiredError
deriving DecidableEq, Repr

/-- Modelled from the spec: `jwt.verify(token, secret)` — checks the
signature (secret match) and then expiry against the clock. -/
def jwtVerify {P : Type} (t : Jwt P) (secret : String) (now : Nat) :
    Except JwtError P :=
  if t.secret ≠ secret then .error .jsonWebTokenError
  else if t.iat + t.expiresIn ≤ now then .error .tokenExpiredError
  else .ok t.payload

/-- The process environment fields the token code reads
(`ACCESS_TOKEN_SECRET`, `REFRESH_TOKEN_SECRET`, `ACCESS_TOKEN_EXPIRY`,
`REFRESH_TOKEN_EXPIRY`). -/
structure Env where
  accessTokenSecret : String
  refreshTokenSecret : String
  accessTokenExpiry : Nat
  refreshTokenExpiry : Nat
deriving DecidableEq, Repr

/-- JavaScript truthiness of a nullable numeric field
(`null`, `undefined` and `0` are falsy). -/
def jsTruthyNat : Option Nat → Bool
  | none => false
  | some n => n != 0

/-- JavaScript truthiness of an optional string field
(`null`, `undefined` and the empty string are falsy). -/
def jsTruthyStr : Option String → Bool
  | none => false
  | some s => !s.isEmpty

/-- ASCII lower-casing of one character, as `toLowerCase` acts on the
ASCII email addresses this code handles. -/
def jsToLowerChar (c : Char) : Char :=
  if 'A' ≤ c ∧ c ≤ 'Z' then Char.ofNat (c.toNat + 32) else c

/-- Whitespace trimming (`String.prototype.trim`). -/
def jsTrim (s : String) : String :=
  String.mk (((s.data.dropWhile Char.isWhitespace).reverse.dropWhile
    Char.isWhitespace).reverse)

/-- `email.trim().toLowerCase()` as performed by `loginUser`. -/
def jsNormalizeEmail (s : String) : String :=
  String.mk ((jsTrim s).data.map jsToLowerChar)

/-! ### Documents (Mongoose models) -/

/-- Payload of `generateAccessToken` in models/user.models.js: the source
signs `{_id, email, fullName: this.userName, isAdmin}` — note that the field
named `fullName` is assigned the user name. -/
structure AccessPayload where
  uid : Nat
  email : String
  fullName : String
  isAdmin : Bool
deriving DecidableEq, Repr

/-- Payload of `generateRefreshToken`: `{_id}` only. -/
structure RefreshPayload where
  uid : Nat
deriving DecidableEq, Repr

/-- A `User` document (models/user.models.js).  `passwordModified` models the
Mongoose `isModified("password")` dirty flag consulted by the pre-save hook;
it is true on a freshly created document whose password was just assigned and
false on a document loaded from the store. -/
structure UserDoc where
  id : Nat
  email : String
  userName : String
  fullName : String
  password : String
  passwordModified : Bool
  registeredEvents : List Nat
  isAdmin : Bool
  kgpMail : Option String
  kgpMailVerified : Bool
  refreshToken : Option (Jwt RefreshPayload)
  emailVerified : Bool
  riddlePoints : Int
deriving DecidableEq, Repr

/-- The OTP purposes of models/otp.models.js. -/
inductive OtpType where
  | email_verification
  | password_reset
  | kgp_mail_verification
deriving DecidableEq, Repr

/-- An `OTP` document (models/otp.models.js).  `otp` holds the bcrypt hash
after the pre-save hook has run (every stored record has been saved). -/
structure OtpDoc where
  id : Nat
  identifier : String
  otpType : OtpType
  otp : String
  userId : Option Nat
  createdAt : Nat
deriving DecidableEq, Repr

/-- `Event.status` enum. -/
inductive EventStatus where
  | past
  | ongoing
  | upcoming
deriving DecidableEq, Repr

/-- An `Event` document (models/event.models.js), restricted to the fields
the registration logic reads. -/
structure EventDoc where
  id : Nat
  title : String
  registration : Bool
  registeredUsers : List Nat
  status : EventStatus
  teamRegistration : Bool
  minTeamSize : Nat
  maxTeamSize : Nat
  teams : List Nat
  maxParticipants : Option Nat
  maxTeams : Option Nat
deriving DecidableEq, Repr

/-- A `Team` document (models/team.models.js). -/
structure TeamDoc where
  id : Nat
  teamName : String
  teamLeader : Nat
  teamMembers : List Nat
  event : Nat
deriving DecidableEq, Repr

/-- The document store: one list per collection. -/
structure DB where
  users : List UserDoc
  otps : List OtpDoc
  events : List EventDoc
  teams : List TeamDoc
deriving DecidableEq, Repr

/-- The uniform error object (`ApiError(statusCode, message)`). -/
structure ApiError where
  statusCode : Nat
  message : String
deriving DecidableEq, Repr

/-! ### Store primitives

`findOne`/`findById` return the first match; `findOneAndUpdate` and
`findByIdAndUpdate` update the first match in place; `findOneAndDelete` and
`findByIdAndDelete` remove the first match; `deleteMany` removes every match;
`updateMany` updates every match. -/

/-- Update the first element satisfying `p` (Mongo `findOneAndUpdate`). -/
def updateFirst {α : Type} (p : α → Bool) (f : α → α) : List α → List α
  | [] => []
  | x :: xs => if p x then f x :: xs else x :: updateFirst p f xs

/-- Remove the first element satisfying `p` (Mongo `findOneAndDelete`). -/
def eraseFirst {α : Type} (p : α → Bool) : List α → List α
  | [] => []
  | x :: xs => if p x then xs else x :: eraseFirst p xs

def findUserByEmail (db : DB) (email : String) : Option UserDoc :=
  db.users.find? (fun u => u.email == email)

def findUserByUserName (db : DB) (userName : String) : Option UserDoc :=
  db.users.find? (fun u => u.userName == userName)

def findUserById (db : DB) (id : Nat) : Option UserDoc :=
  db.users.find? (fun u => u.id == id)

def findEventById (db : DB) (id : Nat) : Option EventDoc :=
  db.events.find? (fun e => e.id == id)

def findTeamById (db : DB) (id : Nat) : Option TeamDoc :=
  db.teams.find? (fun t => t.id == id)

/-- Predicate for a live code of an (identifier, purpose) pair. -/
def otpMatches (identifier : String) (t : OtpType) (r : OtpDoc) : Bool :=
  r.identifier == identifier && r.otpType == t

/-- The OTP lookup every verification/issuance path performs:
`OTP.findOne({identifier, type})`. -/
def otpFindOne (db : DB) (identifier : String) (t : OtpType) : Option OtpDoc :=
  db.otps.find? (otpMatches identifier t)

/-! ### User model methods (models/user.models.js) -/

/-- `userSchema.pre("save")`: hash the password with bcrypt cost 10 when
(and only when) the password path was modified; a completed save clears the
dirty flag. -/
def userPreSave (u : UserDoc) : UserDoc :=
  if u.passwordModified then
    { u with password := bcryptHash 10 u.password, passwordModified := false }
  else u

/-- `userSchema.methods.isPasswordCorrect`: `bcrypt.compare(password, this.password)`. -/
def isPasswordCorrect (u : UserDoc) (password : String) : Bool :=
  bcryptCompare password u.password

/-- `userSchema.methods.generateAccessToken`: signs
`{_id, email, fullName: this.userName, isAdmin}` with the access secret and
the configured access lifetime. -/
def generateAccessToken (env : Env) (now : Nat) (u : UserDoc) : Jwt AccessPayload :=
  { payload := { uid := u.id, email := u.email, fullName := u.userName, isAdmin := u.isAdmin },
    secret := env.accessTokenSecret, iat := now, expiresIn := env.accessTokenExpiry }

/-- `userSchema.methods.generateRefreshToken`: signs `{_id}` with the refresh
secret and the configured refresh lifetime. -/
def generateRefreshToken (env : Env) (now : Nat) (u : UserDoc) : Jwt RefreshPayload :=
  { payload := { uid := u.id },
    secret := env.refreshTokenSecret, iat := now, expiresIn := env.refreshTokenExpiry }

/-- `user.save(...)`: run the pre-save hook and write the document back over
the stored document with the same `_id`. -/
def saveUser (db : DB) (u : UserDoc) : DB :=
  { db with users := updateFirst (fun v => v.id == u.id) (fun _ => userPreSave u) db.users }

/-! ### OTP model (models/otp.models.js) -/

/-- `OTP.create({identifier, otp, type, userId})` followed by the pre-save
hook, which hashes the fresh plaintext code with bcrypt cost 10. -/
def otpCreate (id : Nat) (identifier plain : String) (t : OtpType)
    (userId : Option Nat) (now : Nat) : OtpDoc :=
  { id := id, identifier := identifier, otpType := t,
    otp := bcryptHash 10 plain, userId := userId, createdAt := now }

/-- `otpSchema.methods.verifyOTP`: `bcrypt.compare(candidate, this.otp)`. -/
def verifyOTP (rec : OtpDoc) (candidate : String) : Bool :=
  bcryptCompare candidate rec.otp

/-! ### Auth controller (controllers/auth.controller.js)

Each handler takes the store plus its request inputs.  Values the runtime
supplies nondeterministically — the generated OTP digits, fresh document ids,
the current time, and the mailer outcome (`sendOTPEmail` returns a boolean
and never throws) — are passed as parameters. -/

/-- `generateTokens(user)`: mint both tokens, store the refresh token on the
user document and save it (`validateBeforeSave:false` skips validation only;
pre-save hooks still run). -/
def generateTokens (env : Env) (now : Nat) (db : DB) (u : UserDoc) :
    DB × Jwt AccessPayload × Jwt RefreshPayload :=
  let accessToken := generateAccessToken env now u
  let refreshToken := generateRefreshToken env now u
  (saveUser db { u with refreshToken := some refreshToken }, accessToken, refreshToken)

/-- `registerUser`: validate inputs, reject duplicate email or username,
create the user (password hashed by the pre-save hook, `emailVerified` and
`isAdmin` defaulting to false), create an email-verification OTP — without
deleting any existing code for the address — then attempt delivery and fail
with 500 if the mailer reports failure (the created user and OTP remain). -/
def registerUser (db : DB) (now : Nat)
    (userName email fullName password kgpMail : Option String)
    (freshUserId freshOtpId : Nat) (otpCode : String) (emailSent : Bool) :
    DB × Except ApiError UserDoc :=
  if !jsTruthyStr userName || !jsTruthyStr email || !jsTruthyStr fullName
      || !jsTruthyStr password then
    (db, .error ⟨400, "Username, Email, fullName, and password are required"⟩)
  else
    let userName := userName.getD ""
    let email := email.getD ""
    let fullName := fullName.getD ""
    let password := password.getD ""
    if (findUserByEmail db email).isSome then
      (db, .error ⟨409, "User with this email already exists"⟩)
    else if (findUserByUserName db userName).isSome then
      (db, .error ⟨409, "User with this username already exists"⟩)
    else
      let newUser : UserDoc := userPreSave
        { id := freshUserId, email := email, userName := userName,
          fullName := fullName, password := password, passwordModified := true,
          registeredEvents := [], isAdmin := false,
          kgpMail := if jsTruthyStr kgpMail then kgpMail else none,
          kgpMailVerified := false, refreshToken := none,
          emailVerified := false, riddlePoints := 0 }
      let db1 : DB := { db with users := db.users ++ [newUser] }
      let db2 : DB := { db1 with otps := db1.otps ++
        [otpCreate freshOtpId email otpCode .email_verification (some freshUserId) now] }
      if emailSent then (db2, .ok newUser)
      else (db2, .error ⟨500, "Failed to send verification email"⟩)

/-- The `User.findOneAndUpdate({email}, {emailVerified: true})` step of
`verifyEmail`. -/
def verifyEmailMarkUser (db : DB) (email : String) : DB :=
  { db with users := (updateFirst
    (fun u => u.email == email)
    (fun u => { u with emailVerified := true }) db.users) }

/-- The `OTP.findByIdAndDelete(otpRecord._id)` step of `verifyEmail`. -/
def verifyEmailDeleteOtp (db : DB) (recId : Nat) : DB :=
  { db with otps := (eraseFirst (fun r => r.id == recId) db.otps) }

/-- `verifyEmail`: look up the live code for (email, email_verification);
absent → 400 not-found; wrong code → 400 invalid with nothing changed;
correct code → mark the user verified, delete the OTP record, rotate
tokens and return them. -/
def verifyEmail (db : DB) (env : Env) (now : Nat) (email otp : Option String) :
    DB × Except ApiError (UserDoc × Jwt AccessPayload × Jwt RefreshPayload) :=
  if !jsTruthyStr email || !jsTruthyStr otp then
    (db, .error ⟨400, "Email and OTP are required"⟩)
  else
    let email := email.getD ""
    let otpCode := otp.getD ""
    match otpFindOne db email .email_verification with
    | none => (db, .error ⟨400, "OTP expired or not found"⟩)
    | some otpRecord =>
      if verifyOTP otpRecord otpCode then
        let db1 := verifyEmailMarkUser db email
        match findUserByEmail db1 email with
        | none => (db1, .error ⟨404, "User not found"⟩)
        | some user =>
          let db2 := verifyEmailDeleteOtp db1 otpRecord.id
          let res := generateTokens env now db2 user
          (res.1, .ok (user, res.2.1, res.2.2))
      else (db, .error ⟨400, "Invalid OTP"⟩)

/-- `resendOTP`: for an existing, still unverified user, delete every live
email-verification code for the address (`deleteMany`), create a fresh one
and attempt delivery. -/
def resendOTP (db : DB) (now : Nat) (email : Option String)
    (freshOtpId : Nat) (otpCode : String) (emailSent : Bool) :
    DB × Except ApiError Unit :=
  if !jsTruthyStr email then (db, .error ⟨400, "Email is required"⟩)
  else
    let email := email.getD ""
    match findUserByEmail db email with
    | none => (db, .error ⟨404, "User not found"⟩)
    | some user =>
      if user.emailVerified then (db, .error ⟨400, "Email is already verified"⟩)
      else
        let db1 : DB := { db with otps := (db.otps.filter
          (fun r => !otpMatches email .email_verification r)) }
        let db2 : DB := { db1 with otps := db1.otps ++
          [otpCreate freshOtpId email otpCode .email_verification (some user.id) now] }
        if emailSent then (db2, .ok ())
        else (db2, .error ⟨500, "Failed to send verification email"⟩)

/-- The user lookup of `loginUser`: by normalized email first when an email
was supplied, then by username. -/
def loginResolve (db : DB) (userName email : Option String) : Option UserDoc :=
  let byEmail :=
    if jsTruthyStr email then findUserByEmail db (jsNormalizeEmail (email.getD ""))
    else none
  match byEmail with
  | some u => some u
  | none =>
    if jsTruthyStr userName then findUserByUserName db (userName.getD "")
    else none

/-- Result of `loginUser`.  `otpEmailsSent` counts the `sendOTPEmail` calls
made and `passwordChecked` records whether `isPasswordCorrect` was evaluated;
both instrument the control flow without altering it. -/
structure LoginResult where
  db : DB
  otpEmailsSent : Nat
  passwordChecked : Bool
  outcome : Except ApiError (UserDoc × Jwt AccessPayload × Jwt RefreshPayload)
deriving Repr

/-- `loginUser`: validate inputs, resolve the account (email first, then
username), and for an unverified account delete one live verification code
(`findOneAndDelete`), create a fresh one, send it (result ignored) and fail
with 403 — the password is never consulted on that path.  For a verified
account, check the password and on success rotate tokens. -/
def loginUser (db : DB) (env : Env) (now : Nat)
    (userName email password : Option String)
    (freshOtpId : Nat) (otpCode : String) (_emailSent : Bool) : LoginResult :=
  if (!jsTruthyStr userName && !jsTruthyStr email) || !jsTruthyStr password then
    ⟨db, 0, false, .error ⟨400, "Email/Username and password are required"⟩⟩
  else
    match loginResolve db userName email with
    | none => ⟨db, 0, false, .error ⟨404, "User not found"⟩⟩
    | some user =>
      if !user.emailVerified then
        let db1 : DB := { db with otps := (eraseFirst
          (otpMatches user.email .email_verification) db.otps) }
        let db2 : DB := { db1 with otps := db1.otps ++
          [otpCreate freshOtpId user.email otpCode .email_verification (some user.id) now] }
        ⟨db2, 1, false,
          .error ⟨403, "Email not verified. New verification OTP has been sent."⟩⟩
      else
        if !isPasswordCorrect user (password.getD "") then
          ⟨db, 0, true, .error ⟨401, "Invalid credentials"⟩⟩
        else
          let res := generateTokens env now db user
          ⟨res.1, 0, true, .ok (user, res.2.1, res.2.2)⟩

/-- `logoutUser`: `$unset` the stored refresh token of the authenticated
account (the only revocation mechanism). -/
def logoutUser (db : DB) (userId : Nat) : DB :=
  { db with users := (updateFirst (fun u => u.id == userId)
      (fun u => { u with refreshToken := none }) db.users) }

/-! ### Token middleware (middlewares/error.middleware.js) -/

/-- `refreshAccessToken`: take the presented refresh token, verify signature
and expiry, resolve the embedded account id, require the literal token to
equal the stored current refresh token, then rotate (mint a new pair and
persist the new refresh token).  Errors thrown inside the try block keep
their message through the catch-and-rewrap (every failure is a 401). -/
def refreshAccessToken (db : DB) (env : Env) (now : Nat)
    (incoming : Option (Jwt RefreshPayload)) :
    Except ApiError (DB × Jwt AccessPayload × Jwt RefreshPayload) :=
  match incoming with
  | none => .error ⟨401, "Unauthorized request"⟩
  | some tok =>
    match jwtVerify tok env.refreshTokenSecret now with
    | .error .tokenExpiredError => .error ⟨401, "Refresh token has expired"⟩
    | .error .jsonWebTokenError => .error ⟨401, "Invalid token format"⟩
    | .ok payload =>
      match findUserById db payload.uid with
      | none => .error ⟨401, "Invalid refresh token"⟩
      | some user =>
        if user.refreshToken = some tok then
          let res := generateTokens env now db user
          .ok res
        else .error ⟨401, "Refresh token is expired or used"⟩

/-! ### Event controller (controllers/event.controller.js) -/

/-- A team of the event in which the account is leader or member:
`Team.findOne({event, $or: [{teamLeader}, {teamMembers}]})`. -/
def userTeamForEvent (db : DB) (eventId userId : Nat) : Option TeamDoc :=
  db.teams.find? (fun t =>
    t.event == eventId && (t.teamLeader == userId || t.teamMembers.contains userId))

/-- A team of the event other than `teamId` in which the account is leader
or member (the second exclusivity lookup of `joinTeam`). -/
def otherTeamForEvent (db : DB) (eventId teamId userId : Nat) : Option TeamDoc :=
  db.teams.find? (fun t => t.event == eventId && t.id != teamId
    && (t.teamLeader == userId || t.teamMembers.contains userId))

/-- The team head-count of an event as computed by `registerForEvent`:
members plus one leader per team. -/
def teamParticipantCount (db : DB) (eventId : Nat) : Nat :=
  (db.teams.filter (fun t => t.event == eventId)).foldl
    (fun acc t => acc + t.teamMembers.length + 1) 0

/-- Total participants of an event (solo registrants plus team head-count),
as computed by `getEventById` for `participantCount`. -/
def participantCount (db : DB) (eventId : Nat) : Nat :=
  (match findEventById db eventId with
   | some e => e.registeredUsers.length
   | none => 0) + teamParticipantCount db eventId

/-- The transactional mutation of `registerForEvent`: push the user onto the
event and the event onto the user. -/
def registerSoloCommit (db : DB) (eventId userId : Nat) : DB :=
  let db1 : DB := { db with events := (updateFirst
    (fun e => e.id == eventId)
    (fun e => { e with registeredUsers := e.registeredUsers ++ [userId] }) db.events) }
  { db1 with users := (updateFirst
    (fun u => u.id == userId)
    (fun u => { u with registeredEvents := u.registeredEvents ++ [eventId] }) db1.users) }

/-- `registerForEvent` (solo): guard registration open, not past, the
team-only gate, solo/team exclusivity and the participant cap, then push the
user onto the event and the event onto the user in one transaction. -/
def registerForEvent (db : DB) (eventId? : Option Nat) (userId : Nat) :
    Except ApiError DB :=
  match eventId? with
  | none => .error ⟨400, "Event ID is required"⟩
  | some eventId =>
    match findEventById db eventId with
    | none => .error ⟨404, "Event not found"⟩
    | some event =>
      if !event.registration then
        .error ⟨400, "Registration is not open for this event"⟩
      else if event.status == .past then
        .error ⟨400, "Cannot register for past events"⟩
      else if event.teamRegistration && event.registeredUsers.isEmpty
          && decide (1 < event.minTeamSize) then
        .error ⟨400, "This event requires team registration"⟩
      else if event.registeredUsers.contains userId then
        .error ⟨400, "User is already registered for this event"⟩
      else if (userTeamForEvent db eventId userId).isSome then
        .error ⟨400, "User is already part of a team for this event"⟩
      else if jsTruthyNat event.maxParticipants
          && decide (event.maxParticipants.getD 0 ≤
               event.registeredUsers.length + teamParticipantCount db eventId) then
        .error ⟨400, "Maximum number of participants reached"⟩
      else
        .ok (registerSoloCommit db eventId userId)

/-! ### Team controller (controllers/team.controller.js) -/

/-- The duplicate-name lookup of `createTeam` (the unique (teamName, event)
index): a team of the event with the requested name. -/
def teamNameTaken (db : DB) (eventId : Nat) (teamName : String) : Option TeamDoc :=
  db.teams.find? (fun t => t.teamName == teamName && t.event == eventId)

/-- The transactional mutation of `createTeam`: create the team, push it
onto the event, and push the event onto the leader. -/
def createTeamCommit (db : DB) (team : TeamDoc) : DB :=
  let db1 : DB := { db with teams := db.teams ++ [team] }
  let db2 : DB := { db1 with events := (updateFirst
    (fun e => e.id == team.event)
    (fun e => { e with teams := e.teams ++ [team.id] }) db1.events) }
  { db2 with users := (updateFirst
    (fun u => u.id == team.teamLeader)
    (fun u => { u with registeredEvents := u.registeredEvents ++ [team.event] }) db2.users) }

/-- `createTeam`: guard team registration, registration open, not past,
solo/team exclusivity and the team cap, then create the team, push it onto
the event, and push the event onto the leader in one transaction.  The
unique (teamName, event) index makes a duplicate name abort the transaction
and surface as a 409, modelled as a pre-check with the same net effect. -/
def createTeam (db : DB) (eventId? : Option Nat) (teamName? : Option String)
    (userId freshTeamId : Nat) : Except ApiError (DB × TeamDoc) :=
  match eventId?, teamName? with
  | some eventId, some teamName =>
    match findEventById db eventId with
    | none => .error ⟨404, "Event not found"⟩
    | some event =>
      if !event.teamRegistration then
        .error ⟨400, "Team registration is not allowed for this event"⟩
      else if !event.registration then
        .error ⟨400, "Registration is not open for this event"⟩
      else if event.status == .past then
        .error ⟨400, "Cannot register for past events"⟩
      else if event.registeredUsers.contains userId then
        .error ⟨400, "User is already registered for this event as solo participant"⟩
      else if (userTeamForEvent db eventId userId).isSome then
        .error ⟨400, "User is already part of a team for this event"⟩
      else if jsTruthyNat event.maxTeams
          && decide (event.maxTeams.getD 0 ≤ event.teams.length) then
        .error ⟨400, "Maximum number of teams reached for this event"⟩
      else if (teamNameTaken db eventId teamName).isSome then
        .error ⟨409, "Team name already exists for this event"⟩
      else
        let team : TeamDoc :=
          { id := freshTeamId, teamName := teamName, teamLeader := userId,
            teamMembers := [], event := eventId }
        .ok (createTeamCommit db team, team)
  | _, _ => .error ⟨400, "Event ID and team name are required"⟩

/-- The transactional mutation of `joinTeam`: `addMember` (push only if
absent) on the team and `$addToSet` of the event onto the user. -/
def joinTeamCommit (db : DB) (teamId userId eventId : Nat) : DB :=
  let db1 : DB := { db with teams := (updateFirst
    (fun t => t.id == teamId)
    (fun t => if t.teamMembers.contains userId then t
              else { t with teamMembers := t.teamMembers ++ [userId] }) db.teams) }
  { db1 with users := (updateFirst
    (fun u => u.id == userId)
    (fun u => if u.registeredEvents.contains eventId then u
              else { u with registeredEvents := u.registeredEvents ++ [eventId] }) db1.users) }

/-- `joinTeam`: guard registration open, not past, solo exclusivity,
membership of this team, membership of another team of the event and the
team-size cap, then add the member (`addMember` pushes only if absent) and
`$addToSet` the event onto the user in one transaction.  A team whose event
document no longer exists makes the populated `event` null and the handler
crash, surfacing as a 500. -/
def joinTeam (db : DB) (teamId userId : Nat) : Except ApiError DB :=
  match findTeamById db teamId with
  | none => .error ⟨404, "Team not found"⟩
  | some team =>
    match findEventById db team.event with
    | none => .error ⟨500, "Internal Server Error"⟩
    | some event =>
      if !event.registration then
        .error ⟨400, "Registration is not open for this event"⟩
      else if event.status == .past then
        .error ⟨400, "Cannot join team for past events"⟩
      else if event.registeredUsers.contains userId then
        .error ⟨400, "User is already registered for this event as solo participant"⟩
      else if team.teamLeader == userId || team.teamMembers.contains userId then
        .error ⟨400, "User is already part of this team"⟩
      else if (otherTeamForEvent db event.id teamId userId).isSome then
        .error ⟨400, "User is already part of another team for this event"⟩
      else if event.maxTeamSize ≤ team.teamMembers.length + 1 then
        .error ⟨400, "Team is already full"⟩
      else
        .ok (joinTeamCommit db teamId userId event.id)

/-- The transactional mutation of the leader branch of `leaveTeam`: pull the
team from the event, pull the event from the registered events of the leader
and every member (`updateMany`), and delete the team. -/
def disbandTeamCommit (db : DB) (team : TeamDoc) (teamId eventId : Nat) : DB :=
  let allMembers := team.teamLeader :: team.teamMembers
  let db1 : DB := { db with events := (updateFirst
    (fun e => e.id == eventId)
    (fun e => { e with teams := e.teams.filter (fun t => t != teamId) }) db.events) }
  let db2 : DB := { db1 with users := db1.users.map (fun u =>
    if allMembers.contains u.id then
      { u with registeredEvents := u.registeredEvents.filter (fun e => e != eventId) }
    else u) }
  { db2 with teams := eraseFirst (fun t => t.id == teamId) db2.teams }

/-- The transactional mutation of the member branch of `leaveTeam`: pull the
member from the team and the event from that member only. -/
def leaveMemberCommit (db : DB) (teamId userId eventId : Nat) : DB :=
  let db1 : DB := { db with teams := (updateFirst
    (fun t => t.id == teamId)
    (fun t => { t with teamMembers := t.teamMembers.filter (fun m => m != userId) }) db.teams) }
  { db1 with users := (updateFirst
    (fun u => u.id == userId)
    (fun u => { u with registeredEvents := u.registeredEvents.filter (fun e => e != eventId) }) db1.users) }

/-- `leaveTeam`: a leader leaving disbands the team in one transaction —
pull the team from the event, pull the event from the registered events of
the leader and every member (`updateMany`), and delete the team; a plain
member leaving is removed from the team and loses only their own
registered-events entry. -/
def leaveTeam (db : DB) (teamId userId : Nat) : Except ApiError (DB × String) :=
  match findTeamById db teamId with
  | none => .error ⟨404, "Team not found"⟩
  | some team =>
    match findEventById db team.event with
    | none => .error ⟨500, "Internal Server Error"⟩
    | some event =>
      let isLeader := team.teamLeader == userId
      let isMember := team.teamMembers.contains userId
      if !isLeader && !isMember then
        .error ⟨400, "User is not part of this team"⟩
      else if isLeader then
        .ok (disbandTeamCommit db team teamId event.id, "Team disbanded successfully")
      else
        .ok (leaveMemberCommit db teamId userId event.id, "Left team successfully")

/-! ### Concrete instances used to evaluate the handlers -/

/-- A sample environment. -/
def envA : Env :=
  { accessTokenSecret := "accesssecret", refreshTokenSecret := "refreshsecret",
    accessTokenExpiry := 86400, refreshTokenExpiry := 2592000 }

/-- A sample verified account. -/
def aliceUser : UserDoc :=
  { id := 7, email := "alice@example.com", userName := "alice123",
    fullName := "Alice A", password := bcryptHash 10 "pw123456",
    passwordModified := false, registeredEvents := [], isAdmin := false,
    kgpMail := none, kgpMailVerified := false, refreshToken := none,
    emailVerified := true, riddlePoints := 0 }

/-- A refresh token for the account below, issued at time 0. -/
def rtokBob : Jwt RefreshPayload :=
  { payload := { uid := 8 }, secret := "refreshsecret", iat := 0,
    expiresIn := 2592000 }

/-- A sample verified account holding `rtokBob` as its current refresh token. -/
def bobUser : UserDoc :=
  { id := 8, email := "bob@example.com", userName := "bob", fullName := "Bob B",
    password := bcryptHash 10 "hunter22", passwordModified := false,
    registeredEvents := [], isAdmin := false, kgpMail := none,
    kgpMailVerified := false, refreshToken := some rtokBob,
    emailVerified := true, riddlePoints := 0 }

/-- A store holding the two sample accounts. -/
def dbAuth : DB := { users := [aliceUser, bobUser], otps := [], events := [], teams := [] }

/-- A sample unverified account. -/
def carolUser : UserDoc :=
  { id := 9, email := "carol@example.com", userName := "carol",
    fullName := "Carol C", password := bcryptHash 10 "secret99",
    passwordModified := false, registeredEvents := [], isAdmin := false,
    kgpMail := none, kgpMailVerified := false, refreshToken := none,
    emailVerified := false, riddlePoints := 0 }

/-- The live verification code issued to Carol. -/
def otpCarol : OtpDoc :=
  otpCreate 300 "carol@example.com" "123456" .email_verification (some 9) 0

/-- A store holding Carol and her live verification code. -/
def dbOtp : DB := { users := [carolUser], otps := [otpCarol], events := [], teams := [] }

/-- Carol after her email has been verified. -/
def carolVerified : UserDoc := { carolUser with emailVerified := true }

/-- The store after Carol successfully verifies her email. -/
def dbOtpAfter : DB :=
  (verifyEmail dbOtp envA 1 (some "carol@example.com") (some "123456")).1

/-- A leftover live verification code for an address with no account
(its account was removed while the code was still within its TTL). -/
def otpStale : OtpDoc :=
  otpCreate 400 "dana@example.com" "111111" .email_verification none 0

/-- A store holding only the leftover code. -/
def dbStale : DB := { users := [], otps := [otpStale], events := [], teams := [] }

/-- A user registered for event 1 as team leader. -/
def leaderUser : UserDoc :=
  { id := 11, email := "lead@example.com", userName := "lead", fullName := "Lea D",
    password := bcryptHash 10 "leadpass", passwordModified := false,
    registeredEvents := [1], isAdmin := false, kgpMail := none,
    kgpMailVerified := false, refreshToken := none, emailVerified := true,
    riddlePoints := 0 }

/-- A user registered for event 1 as a team member. -/
def memberUser : UserDoc :=
  { id := 12, email := "mem@example.com", userName := "mem", fullName := "Mem B",
    password := bcryptHash 10 "mempass", passwordModified := false,
    registeredEvents := [1], isAdmin := false, kgpMail := none,
    kgpMailVerified := false, refreshToken := none, emailVerified := true,
    riddlePoints := 0 }

/-- An open event with one solo registrant (user 10) and one team (20). -/
def eventE1 : EventDoc :=
  { id := 1, title := "GameNight", registration := true, registeredUsers := [10],
    status := .upcoming, teamRegistration := true, minTeamSize := 1,
    maxTeamSize := 4, teams := [20], maxParticipants := none, maxTeams := none }

/-- The team of event 1: leader 11, member 12. -/
def teamT20 : TeamDoc :=
  { id := 20, teamName := "Minimax", teamLeader := 11, teamMembers := [12],
    event := 1 }

/-- A store with the open event, its team and the two team accounts. -/
def dbEvents : DB :=
  { users := [leaderUser, memberUser], otps := [], events := [eventE1],
    teams := [teamT20] }

/-- An open team event that is already at its participant cap
(maxParticipants = 1) through one solo registrant. -/
def eventCap : EventDoc :=
  { id := 2, title := "Duel", registration := true, registeredUsers := [10],
    status := .upcoming, teamRegistration := true, minTeamSize := 2,
    maxTeamSize := 3, teams := [], maxParticipants := some 1, maxTeams := none }

/-- A store with the capped event and no teams. -/
def dbCap : DB := { users := [], otps := [], events := [eventCap], teams := [] }

/-- An open solo event with maxParticipants = 2 and one solo registrant. -/
def eventCap2 : EventDoc :=
  { id := 3, title := "Trio", registration := true, registeredUsers := [10],
    status := .upcoming, teamRegistration := false, minTeamSize := 1,
    maxTeamSize := 1, teams := [], maxParticipants := some 2, maxTeams := some 1 }

/-- A store with the two-participant event. -/
def dbCap2 : DB := { users := [], otps := [], events := [eventCap2], teams := [] }

end KGTS

namespace KGTS

/-! ### Helper lemmas on the store primitives -/

theorem userPreSave_id (u : UserDoc) : (userPreSave u).id = u.id := by
  unfold userPreSave; split <;> rfl

theorem userPreSave_refreshToken (u : UserDoc) :
    (userPreSave u).refreshToken = u.refreshToken := by
  unfold userPreSave; split <;> rfl

theorem userPreSave_email (u : UserDoc) : (userPreSave u).email = u.email := by
  unfold userPreSave; split <;> rfl

theorem find?_updateFirst_map {α : Type} (p : α → Bool) (f : α → α) (l : List α)
    (hf : ∀ a, p a = true → p (f a) = true) :
    (updateFirst p f l).find? p = (l.find? p).map f := by
  induction l with
  | nil => rfl
  | cons x xs ih =>
    by_cases hx : p x = true
    · rw [updateFirst, if_pos hx, List.find?_cons_of_pos _ (hf x hx),
        List.find?_cons_of_pos _ hx]
      rfl
    · rw [updateFirst, if_neg hx, List.find?_cons_of_neg _ hx,
        List.find?_cons_of_neg _ hx, ih]

theorem find?_updateFirst_disjoint {α : Type} (p q : α → Bool) (f : α → α)
    (l : List α) (hdis : ∀ a, p a = true → q a = false)
    (hfp : ∀ a, q a = true → p (f a) = false) :
    (updateFirst q f l).find? p = l.find? p := by
  induction l with
  | nil => rfl
  | cons x xs ih =>
    by_cases hx : q x = true
    · have hpx : ¬p x = true := fun h => by simp [hdis x h] at hx
      have hpfx : ¬p (f x) = true := by simp [hfp x hx]
      rw [updateFirst, if_pos hx, List.find?_cons_of_neg _ hpfx,
        List.find?_cons_of_neg _ hpx]
    · by_cases hpx : p x = true
      · rw [updateFirst, if_neg hx, List.find?_cons_of_pos _ hpx,
          List.find?_cons_of_pos _ hpx]
      · rw [updateFirst, if_neg hx, List.find?_cons_of_neg _ hpx,
          List.find?_cons_of_neg _ hpx, ih]

theorem find?_listMap {α : Type} (p : α → Bool) (g : α → α) (l : List α)
    (hg : ∀ a, p (g a) = p a) :
    (l.map g).find? p = (l.find? p).map g := by
  induction l with
  | nil => rfl
  | cons x xs ih =>
    by_cases hx : p x = true
    · rw [List.map_cons, List.find?_cons_of_pos _ (by rw [hg x]; exact hx),
        List.find?_cons_of_pos _ hx]
      rfl
    · rw [List.map_cons, List.find?_cons_of_neg _ (by rw [hg x]; exact hx),
        List.find?_cons_of_neg _ hx, ih]

theorem mem_of_mem_eraseFirst {α : Type} (p : α → Bool) (l : List α) (x : α)
    (hx : x ∈ eraseFirst p l) : x ∈ l := by
  induction l with
  | nil => simp [eraseFirst] at hx
  | cons y ys ih =>
    rw [eraseFirst] at hx
    by_cases hy : p y = true
    · rw [if_pos hy] at hx
      exact List.mem_cons_of_mem y hx
    · rw [if_neg hy] at hx
      rcases List.mem_cons.mp hx with h | h
      · exact h ▸ List.mem_cons_self y ys
      · exact List.mem_cons_of_mem y (ih h)

theorem filter_eraseFirst_of_le_one {α : Type} (p : α → Bool) (l : List α)
    (h : (l.filter p).length ≤ 1) : (eraseFirst p l).filter p = [] := by
  induction l with
  | nil => rfl
  | cons x xs ih =>
    by_cases hx : p x = true
    · rw [eraseFirst, if_pos hx]
      rw [List.filter_cons_of_pos hx] at h
      rw [List.length_cons] at h
      have hz : (xs.filter p).length = 0 := by omega
      exact List.length_eq_zero.mp hz
    · rw [eraseFirst, if_neg hx, List.filter_cons_of_neg hx]
      rw [List.filter_cons_of_neg hx] at h
      exact ih h

theorem mem_mem_of_length_le_one {α : Type} (l : List α) (a b : α)
    (h : l.length ≤ 1) (ha : a ∈ l) (hb : b ∈ l) : a = b := by
  match l with
  | [] => cases ha
  | [x] =>
    rw [List.mem_singleton] at ha hb
    rw [ha, hb]
  | x :: y :: xs => simp [List.length_cons] at h

theorem not_mem_eraseFirst_key {α : Type} (key : α → Nat) (a : α) (l : List α)
    (hids : l.Pairwise (fun x y => key x ≠ key y)) :
    a ∉ eraseFirst (fun x => key x == key a) l := by
  induction l with
  | nil => simp [eraseFirst]
  | cons x xs ih =>
    rcases List.pairwise_cons.mp hids with ⟨hx, hxs⟩
    rw [eraseFirst]
    by_cases hkey : (key x == key a) = true
    · rw [if_pos hkey]
      intro hmem
      exact hx a hmem (beq_iff_eq.mp hkey)
    · rw [if_neg hkey]
      intro hmem
      rcases List.mem_cons.mp hmem with h | h
      · exact hkey (by rw [h]; exact beq_self_eq_true (key x))
      · exact ih hxs h

theorem filter_key_length_le_one {α : Type} (key : α → Nat) (k : Nat)
    (l : List α) (hids : l.Pairwise (fun x y => key x ≠ key y)) :
    (l.filter (fun x => key x == k)).length ≤ 1 := by
  induction l with
  | nil => simp
  | cons x xs ih =>
    rcases List.pairwise_cons.mp hids with ⟨hx, hxs⟩
    rw [List.filter_cons]
    by_cases hkey : (key x == k) = true
    · rw [if_pos hkey]
      have hnil : xs.filter (fun y => key y == k) = [] := by
        rw [List.filter_eq_nil_iff]
        intro y hy hky
        exact hx y hy (by rw [beq_iff_eq.mp hkey, beq_iff_eq.mp hky])
      simp [hnil]
    · rw [if_neg hkey]
      exact ih hxs

theorem find?_eq_none_of_filter_eq_nil {α : Type} (p : α → Bool) (l : List α)
    (h : l.filter p = []) : l.find? p = none := by
  rw [List.find?_eq_none]
  intro x hx hpx
  have : x ∈ l.filter p := List.mem_filter.mpr ⟨hx, hpx⟩
  simp [h] at this

theorem eq_of_key_eq {α : Type} (key : α → Nat) (l : List α)
    (hids : l.Pairwise (fun x y => key x ≠ key y)) (a b : α)
    (ha : a ∈ l) (hb : b ∈ l) (hk : key a = key b) : a = b := by
  induction l with
  | nil => cases ha
  | cons x xs ih =>
    rcases List.pairwise_cons.mp hids with ⟨hx, hxs⟩
    rcases List.mem_cons.mp ha with ha2 | ha2 <;>
      rcases List.mem_cons.mp hb with hb2 | hb2
    · rw [ha2, hb2]
    · exfalso
      rw [ha2] at hk
      exact hx b hb2 hk
    · exfalso
      rw [hb2] at hk
      exact hx a ha2 hk.symm
    · exact ih hxs ha2 hb2

theorem findUserById_id (db : DB) (i : Nat) (u : UserDoc)
    (h : findUserById db i = some u) : u.id = i := by
  have h2 : db.users.find? (fun x => x.id == i) = some u := h
  have h3 := List.find?_some h2
  simp only [beq_iff_eq] at h3
  exact h3

theorem findUserById_saveUser (db : DB) (i : Nat) (u v : UserDoc)
    (hfind : findUserById db i = some u) (hv : v.id = u.id) :
    findUserById (saveUser db v) i = some (userPreSave v) := by
  have hid : u.id = i := findUserById_id db i u hfind
  have hv2 : v.id = i := hv.trans hid
  have hfind2 : db.users.find? (fun x => x.id == i) = some u := hfind
  unfold findUserById saveUser
  have hpred : (fun x : UserDoc => x.id == v.id) = (fun x : UserDoc => x.id == i) := by
    funext x
    rw [hv2]
  rw [hpred, find?_updateFirst_map (fun x : UserDoc => x.id == i)
    (fun _ => userPreSave v) db.users
    (fun a _ => by
      show ((userPreSave v).id == i) = true
      rw [userPreSave_id, hv2]
      exact beq_self_eq_true i), hfind2]
  rfl

/-! ### Claim theorems -/

/-- C4: the password stored by the pre-save hook verifies against the
plaintext it was produced from, never textually equals that plaintext, the
hook clears the dirty flag so the field is hashed exactly once per logical
change, and saving an account whose password was not modified (for example
to persist a rotated refresh token) changes nothing about the stored hash. -/
theorem password_hashing_roundtrip (P : String) (u : UserDoc) :
    isPasswordCorrect (userPreSave { u with password := P, passwordModified := true }) P = true
    ∧ (userPreSave { u with password := P, passwordModified := true }).password ≠ P
    ∧ (userPreSave { u with password := P, passwordModified := true }).passwordModified = false
    ∧ (∀ v : UserDoc, v.passwordModified = false →
        (∀ rt, userPreSave { v with refreshToken := rt } = { v with refreshToken := rt })
        ∧ userPreSave v = v) := by
  refine ⟨?_, ?_, ?_, ?_⟩
  · simp [isPasswordCorrect, bcryptCompare, userPreSave]
  · have hps : (userPreSave { u with password := P, passwordModified := true }).password
        = bcryptHash 10 P := by
      simp [userPreSave]
    rw [hps]
    intro h
    have h2 := congrArg String.length h
    simp only [bcryptHash] at h2
    rw [String.length_append, String.length_append, String.length_append] at h2
    have ha : "$2b$".length = 4 := rfl
    have hb : (toString (10 : Nat)).length = 2 := rfl
    have hc : "$".length = 1 := rfl
    omega
  · simp [userPreSave]
  · intro v hv
    constructor
    · intro rt
      simp [userPreSave, hv]
    · simp [userPreSave, hv]

/-- C4 witness: the roundtrip properties evaluated at a concrete password
and account. -/
theorem password_hashing_roundtrip_witness :
    isPasswordCorrect (userPreSave { aliceUser with password := "pw123456", passwordModified := true }) "pw123456" = true
    ∧ (userPreSave { aliceUser with password := "pw123456", passwordModified := true }).password ≠ "pw123456"
    ∧ aliceUser.passwordModified = false
    ∧ userPreSave aliceUser = aliceUser := by
  have h := password_hashing_roundtrip "pw123456" aliceUser
  exact ⟨h.1, h.2.1, by decide, (h.2.2.2 aliceUser (by decide)).2⟩

/-- C5 (code bug): `generateAccessToken` signs `{_id, email, fullName,
isAdmin}` with the access secret and the configured access lifetime, but the
payload field named `fullName` is assigned `this.userName`, so for an account
whose user name differs from its display name the token does not carry the
display name. -/
theorem generateAccessToken_payload_bug :
    (∀ env now u, generateAccessToken env now u =
      { payload := { uid := u.id, email := u.email, fullName := u.userName,
                     isAdmin := u.isAdmin },
        secret := env.accessTokenSecret, iat := now,
        expiresIn := env.accessTokenExpiry })
    ∧ (generateAccessToken envA 0 aliceUser).payload.fullName = "alice123"
    ∧ aliceUser.fullName = "Alice A"
    ∧ (generateAccessToken envA 0 aliceUser).payload.fullName ≠ aliceUser.fullName := by
  exact ⟨fun env now u => rfl, rfl, rfl, by decide⟩

/-- C1: a refresh request succeeds exactly when the presented token carries
the refresh secret, is unexpired, its embedded account id resolves, and its
literal value equals the refresh token stored on that account; on success a
fresh pair is returned and the new refresh token is persisted onto the
account; when everything else is valid but the stored value differs (it was
rotated out or cleared by logout) the request fails with the 401 stale
error and no tokens are produced. -/
theorem refreshAccessToken_correct (db : DB) (env : Env) (now : Nat)
    (incoming : Option (Jwt RefreshPayload)) :
    ((∃ out, refreshAccessToken db env now incoming = .ok out) ↔
      (∃ tok u, incoming = some tok ∧ tok.secret = env.refreshTokenSecret ∧
        now < tok.iat + tok.expiresIn ∧
        findUserById db tok.payload.uid = some u ∧ u.refreshToken = some tok))
    ∧ (∀ dbAfter access refresh,
        refreshAccessToken db env now incoming = .ok (dbAfter, access, refresh) →
        ∃ tok u, incoming = some tok ∧ findUserById db tok.payload.uid = some u ∧
          access = generateAccessToken env now u ∧
          refresh = generateRefreshToken env now u ∧
          ∃ u2, findUserById dbAfter tok.payload.uid = some u2 ∧
            u2.refreshToken = some refresh)
    ∧ (∀ tok u, incoming = some tok → tok.secret = env.refreshTokenSecret →
        now < tok.iat + tok.expiresIn → findUserById db tok.payload.uid = some u →
        u.refreshToken ≠ some tok →
        refreshAccessToken db env now incoming =
          .error ⟨401, "Refresh token is expired or used"⟩) := by
  cases incoming with
  | none =>
    refine ⟨⟨?_, ?_⟩, ?_, ?_⟩
    · rintro ⟨out, hout⟩
      simp [refreshAccessToken] at hout
    · rintro ⟨tok, u, htok, -⟩
      cases htok
    · intro dbAfter access refresh h
      simp [refreshAccessToken] at h
    · intro tok u htok
      cases htok
  | some tok =>
    by_cases hsec : tok.secret = env.refreshTokenSecret
    · by_cases hexp : tok.iat + tok.expiresIn ≤ now
      · have hred : refreshAccessToken db env now (some tok) =
            .error ⟨401, "Refresh token has expired"⟩ := by
          simp [refreshAccessToken, jwtVerify, hsec, hexp]
        refine ⟨⟨?_, ?_⟩, ?_, ?_⟩
        · rintro ⟨out, hout⟩
          rw [hred] at hout
          cases hout
        · rintro ⟨tok2, u, htok2, hsec2, hexp2, -⟩
          injection htok2 with h
          subst h
          exact absurd hexp2 (Nat.not_lt.mpr hexp)
        · intro dbAfter access refresh h
          rw [hred] at h
          cases h
        · intro tok2 u htok2 hsec2 hexp2 hfind hne
          injection htok2 with h
          subst h
          exact absurd hexp2 (Nat.not_lt.mpr hexp)
      · cases hfind : findUserById db tok.payload.uid with
        | none =>
          have hred : refreshAccessToken db env now (some tok) =
              .error ⟨401, "Invalid refresh token"⟩ := by
            simp [refreshAccessToken, jwtVerify, hsec, hexp, hfind]
          refine ⟨⟨?_, ?_⟩, ?_, ?_⟩
          · rintro ⟨out, hout⟩
            rw [hred] at hout
            cases hout
          · rintro ⟨tok2, u, htok2, hsec2, hexp2, hfind2, -⟩
            injection htok2 with h
            subst h
            rw [hfind] at hfind2
            cases hfind2
          · intro dbAfter access refresh h
            rw [hred] at h
            cases h
          · intro tok2 u htok2 hsec2 hexp2 hfind2 hne
            injection htok2 with h
            subst h
            rw [hfind] at hfind2
            cases hfind2
        | some u =>
          by_cases hstore : u.refreshToken = some tok
          · have hred : refreshAccessToken db env now (some tok) =
                .ok (generateTokens env now db u) := by
              simp [refreshAccessToken, jwtVerify, hsec, hexp, hfind, hstore]
            refine ⟨⟨?_, ?_⟩, ?_, ?_⟩
            · rintro -
              exact ⟨tok, u, rfl, hsec, Nat.not_le.mp hexp, hfind, hstore⟩
            · rintro -
              exact ⟨generateTokens env now db u, hred⟩
            · intro dbAfter access refresh h
              have htriple : generateTokens env now db u = (dbAfter, access, refresh) :=
                Except.ok.inj (hred.symm.trans h)
              have h1 : (generateTokens env now db u).1 = dbAfter :=
                congrArg Prod.fst htriple
              have h2 : (generateTokens env now db u).2.1 = access :=
                congrArg (fun x => x.2.1) htriple
              have h3 : (generateTokens env now db u).2.2 = refresh :=
                congrArg (fun x => x.2.2) htriple
              refine ⟨tok, u, rfl, hfind, h2.symm, h3.symm, ?_⟩
              have hdbAfter : dbAfter =
                  saveUser db { u with refreshToken := some (generateRefreshToken env now u) } :=
                h1.symm
              have hfound := findUserById_saveUser db tok.payload.uid u
                { u with refreshToken := some (generateRefreshToken env now u) } hfind rfl
              refine ⟨userPreSave { u with refreshToken := some (generateRefreshToken env now u) },
                ?_, ?_⟩
              · rw [hdbAfter]
                exact hfound
              · rw [userPreSave_refreshToken, ← h3]
                rfl
            · intro tok2 u2 htok2 hsec2 hexp2 hfind2 hne
              injection htok2 with h
              subst h
              rw [hfind] at hfind2
              injection hfind2 with h2
              subst h2
              exact absurd hstore hne
          · have hred : refreshAccessToken db env now (some tok) =
                .error ⟨401, "Refresh token is expired or used"⟩ := by
              simp [refreshAccessToken, jwtVerify, hsec, hexp, hfind, hstore]
            refine ⟨⟨?_, ?_⟩, ?_, ?_⟩
            · rintro ⟨out, hout⟩
              rw [hred] at hout
              cases hout
            · rintro ⟨tok2, u2, htok2, hsec2, hexp2, hfind2, hstore2⟩
              injection htok2 with h
              subst h
              rw [hfind] at hfind2
              injection hfind2 with h2
              subst h2
              exact absurd hstore2 hstore
            · intro dbAfter access refresh h
              rw [hred] at h
              cases h
            · intro tok2 u2 htok2 hsec2 hexp2 hfind2 hne
              cases htok2
              exact hred
    · have hred : refreshAccessToken db env now (some tok) =
          .error ⟨401, "Invalid token format"⟩ := by
        simp [refreshAccessToken, jwtVerify, hsec]
      refine ⟨⟨?_, ?_⟩, ?_, ?_⟩
      · rintro ⟨out, hout⟩
        rw [hred] at hout
        cases hout
      · rintro ⟨tok2, u, htok2, hsec2, -⟩
        injection htok2 with h
        subst h
        exact absurd hsec2 hsec
      · intro dbAfter access refresh h
        rw [hred] at h
        cases h
      · intro tok2 u htok2 hsec2 hexp2 hfind hne
        injection htok2 with h
        subst h
        exact absurd hsec2 hsec

/-- C1 witness: after logging Bob out, refreshing with his previously valid
token fails with the stale-token 401, while in the original store (where the
token is still the stored one) the refresh succeeds. -/
theorem refreshAccessToken_correct_witness :
    refreshAccessToken (logoutUser dbAuth 8) envA 5 (some rtokBob) =
      .error ⟨401, "Refresh token is expired or used"⟩
    ∧ (∃ out, refreshAccessToken dbAuth envA 5 (some rtokBob) = .ok out) := by
  constructor
  · exact (refreshAccessToken_correct (logoutUser dbAuth 8) envA 5 (some rtokBob)).2.2
      rtokBob { bobUser with refreshToken := none } rfl (by decide) (by decide)
      (by decide) (by decide)
  · exact (refreshAccessToken_correct dbAuth envA 5 (some rtokBob)).1.mpr
      ⟨rtokBob, bobUser, rfl, by decide, by decide, by decide, by decide⟩

/-- C2: a successful email verification deletes the OTP record, so a second
attempt for the same (identifier, purpose) — with the same or any code —
fails with the 400 "OTP expired or not found" error; a failed attempt leaves
the store untouched (the record stays for retries) and reports
"Invalid OTP". -/
theorem verifyEmail_single_use (db : DB) (env : Env) (now now2 : Nat)
    (email code code2 : String)
    (hemail : email.isEmpty = false) (hcode : code.isEmpty = false)
    (hcode2 : code2.isEmpty = false)
    (hone : (db.otps.filter (otpMatches email .email_verification)).length ≤ 1)
    (hids : db.otps.Pairwise (fun a b => a.id ≠ b.id)) :
    (∀ dbAfter ok, verifyEmail db env now (some email) (some code) = (dbAfter, .ok ok) →
      (verifyEmail dbAfter env now2 (some email) (some code2)).2 =
        .error ⟨400, "OTP expired or not found"⟩)
    ∧ (∀ rec, otpFindOne db email .email_verification = some rec →
        verifyOTP rec code = false →
        verifyEmail db env now (some email) (some code) =
          (db, .error ⟨400, "Invalid OTP"⟩)) := by
  constructor
  · intro dbAfter ok hsucc
    cases hrec : otpFindOne db email .email_verification with
    | none =>
      have hred : verifyEmail db env now (some email) (some code) =
          (db, .error ⟨400, "OTP expired or not found"⟩) := by
        simp [verifyEmail, jsTruthyStr, hemail, hcode, hrec]
      rw [hred] at hsucc
      simp at hsucc
    | some rec =>
      cases hvalid : verifyOTP rec code with
      | false =>
        have hred : verifyEmail db env now (some email) (some code) =
            (db, .error ⟨400, "Invalid OTP"⟩) := by
          simp [verifyEmail, jsTruthyStr, hemail, hcode, hrec, hvalid]
        rw [hred] at hsucc
        simp at hsucc
      | true =>
        cases huser : findUserByEmail (verifyEmailMarkUser db email) email with
        | none =>
          have hred : verifyEmail db env now (some email) (some code) =
              (verifyEmailMarkUser db email, .error ⟨404, "User not found"⟩) := by
            simp [verifyEmail, jsTruthyStr, hemail, hcode, hrec, hvalid, huser]
          rw [hred] at hsucc
          simp at hsucc
        | some user =>
          have hred : verifyEmail db env now (some email) (some code) =
              ((generateTokens env now
                  (verifyEmailDeleteOtp (verifyEmailMarkUser db email) rec.id) user).1,
               .ok (user,
                 (generateTokens env now
                   (verifyEmailDeleteOtp (verifyEmailMarkUser db email) rec.id) user).2.1,
                 (generateTokens env now
                   (verifyEmailDeleteOtp (verifyEmailMarkUser db email) rec.id) user).2.2)) := by
            simp [verifyEmail, jsTruthyStr, hemail, hcode, hrec, hvalid, huser]
          rw [hred] at hsucc
          have hotps : dbAfter.otps = eraseFirst (fun r => r.id == rec.id) db.otps := by
            have h1 : (generateTokens env now
                (verifyEmailDeleteOtp (verifyEmailMarkUser db email) rec.id) user).1.otps
                = dbAfter.otps := congrArg (fun x => x.1.otps) hsucc
            exact h1.symm
          have hnone : otpFindOne dbAfter email .email_verification = none := by
            have : dbAfter.otps.find? (otpMatches email .email_verification) = none := by
              rw [List.find?_eq_none]
              intro x hx hmatch
              rw [hotps] at hx
              have hxdb : x ∈ db.otps := mem_of_mem_eraseFirst _ _ _ hx
              have hrecmem : rec ∈ db.otps := List.mem_of_find?_eq_some hrec
              have hrecmatch : otpMatches email .email_verification rec = true :=
                List.find?_some hrec
              have hxf : x ∈ db.otps.filter (otpMatches email .email_verification) :=
                List.mem_filter.mpr ⟨hxdb, hmatch⟩
              have hrecf : rec ∈ db.otps.filter (otpMatches email .email_verification) :=
                List.mem_filter.mpr ⟨hrecmem, hrecmatch⟩
              have hxr : x = rec := mem_mem_of_length_le_one _ _ _ hone hxf hrecf
              exact absurd (hxr ▸ hx) (not_mem_eraseFirst_key OtpDoc.id rec db.otps hids)
            exact this
          simp [verifyEmail, jsTruthyStr, hemail, hcode2, hnone]
  · intro rec hrec hvalid
    simp [verifyEmail, jsTruthyStr, hemail, hcode, hrec, hvalid]

/-- The unverified branch of `loginUser`, as a reduction equation: the login
deletes one live code, creates a fresh one, makes one delivery attempt and
fails with 403, never consulting the password. -/
theorem loginUser_unverified_eq (db : DB) (env : Env) (now : Nat)
    (userName email password : Option String) (freshOtpId : Nat)
    (otpCode : String) (emailSent : Bool) (u : UserDoc)
    (hresolve : loginResolve db userName email = some u)
    (hpw : jsTruthyStr password = true)
    (hunv : u.emailVerified = false) :
    loginUser db env now userName email password freshOtpId otpCode emailSent =
      ⟨{ db with otps := (eraseFirst (otpMatches u.email .email_verification) db.otps)
          ++ [otpCreate freshOtpId u.email otpCode .email_verification (some u.id) now] },
        1, false,
        .error ⟨403, "Email not verified. New verification OTP has been sent."⟩⟩ := by
  have hguard : ((!jsTruthyStr userName && !jsTruthyStr email) || !jsTruthyStr password)
      = false := by
    rw [hpw]
    cases he : jsTruthyStr email
    · cases hun : jsTruthyStr userName
      · exfalso
        simp [loginResolve, he, hun] at hresolve
      · simp [hun]
    · simp [he]
  simp [loginUser, hguard, hresolve, hunv]

/-- C2 witness: Carol verifies with the correct code; the immediate second
attempt with the very same code fails with the not-found error. -/
theorem verifyEmail_single_use_witness :
    (verifyEmail dbOtpAfter envA 2 (some "carol@example.com") (some "123456")).2 =
      .error ⟨400, "OTP expired or not found"⟩ := by
  exact (verifyEmail_single_use dbOtp envA 1 2 "carol@example.com" "123456" "123456"
      rfl rfl rfl (by decide) (by decide)).1 dbOtpAfter
    (carolVerified, generateAccessToken envA 1 carolVerified,
      generateRefreshToken envA 1 carolVerified) (by rfl)

/-- C3 counterexample: in a store holding a leftover live code for
dana@example.com (and no account), registration for that address succeeds
and leaves TWO live codes for (dana@example.com, email_verification) — the
registration path creates its code without deleting the existing one. -/
theorem registerUser_no_supersede_counterexample :
    ((registerUser dbStale 5 (some "dana") (some "dana@example.com")
        (some "Dana D") (some "pw12345") none 1 401 "222222" true).2.isOk = true)
    ∧ ((registerUser dbStale 5 (some "dana") (some "dana@example.com")
        (some "Dana D") (some "pw12345") none 1 401 "222222" true).1.otps.filter
          (otpMatches "dana@example.com" .email_verification)).length = 2 := by
  exact ⟨rfl, rfl⟩

/-- C3 amended: delete-before-issue holds on the resend path (which deletes
every live code for the pair) and on the unverified-login path (which
deletes at most one, hence exactly the one prior code when at most one
exists); the registration path, however, appends its fresh code without
deleting anything, so the at-most-one-live-code property is guaranteed only
when registration starts with no live code for the pair. -/
theorem otp_supersede_amended :
    (∀ db now email fid code sent u, email.isEmpty = false →
      findUserByEmail db email = some u → u.emailVerified = false →
      (resendOTP db now (some email) fid code sent).1.otps.filter
          (otpMatches email .email_verification) =
        [otpCreate fid email code .email_verification (some u.id) now])
    ∧ (∀ db env now userName email password fid code sent u,
      loginResolve db userName email = some u → jsTruthyStr password = true →
      u.emailVerified = false →
      (db.otps.filter (otpMatches u.email .email_verification)).length ≤ 1 →
      ((loginUser db env now userName email password fid code sent).db.otps.filter
          (otpMatches u.email .email_verification)) =
        [otpCreate fid u.email code .email_verification (some u.id) now])
    ∧ (∀ db now userName email fullName password kgpMail uid oid code sent,
      userName.isEmpty = false → email.isEmpty = false → fullName.isEmpty = false →
      password.isEmpty = false → findUserByEmail db email = none →
      findUserByUserName db userName = none →
      (registerUser db now (some userName) (some email) (some fullName)
          (some password) kgpMail uid oid code sent).1.otps =
        db.otps ++ [otpCreate oid email code .email_verification (some uid) now]) := by
  refine ⟨?_, ?_, ?_⟩
  · intro db now email fid code sent u hemail hfind hunv
    have hred : (resendOTP db now (some email) fid code sent).1 =
        { db with otps := (db.otps.filter
            (fun r => !otpMatches email .email_verification r))
          ++ [otpCreate fid email code .email_verification (some u.id) now] } := by
      cases sent <;> simp [resendOTP, jsTruthyStr, hemail, hfind, hunv]
    rw [hred]
    show ((db.otps.filter (fun r => !otpMatches email .email_verification r))
        ++ [otpCreate fid email code .email_verification (some u.id) now]).filter
          (otpMatches email .email_verification) = _
    rw [List.filter_append, List.filter_filter]
    simp [Bool.and_not_self, otpMatches, otpCreate]
  · intro db env now userName email password fid code sent u hresolve hpw hunv hone
    rw [loginUser_unverified_eq db env now userName email password fid code sent u
      hresolve hpw hunv]
    show ((eraseFirst (otpMatches u.email .email_verification) db.otps)
        ++ [otpCreate fid u.email code .email_verification (some u.id) now]).filter
          (otpMatches u.email .email_verification) = _
    rw [List.filter_append, filter_eraseFirst_of_le_one _ _ hone]
    simp [otpMatches, otpCreate]
  · intro db now userName email fullName password kgpMail uid oid code sent
      hun hemail hfn hpw hfe hfu
    have hfe2 : (findUserByEmail db email).isSome = false := by rw [hfe]; rfl
    have hfu2 : (findUserByUserName db userName).isSome = false := by rw [hfu]; rfl
    cases sent <;>
      simp [registerUser, jsTruthyStr, hun, hemail, hfn, hpw, hfe2, hfu2]

/-- C3 amended witness: the resend path evaluated on Carol's store yields
exactly the fresh code, and the registration path on the stale store
appends without deleting. -/
theorem otp_supersede_amended_witness :
    (resendOTP dbOtp 3 (some "carol@example.com") 301 "654321" true).1.otps.filter
        (otpMatches "carol@example.com" .email_verification) =
      [otpCreate 301 "carol@example.com" "654321" .email_verification (some 9) 3]
    ∧ (registerUser dbStale 5 (some "dana") (some "dana@example.com")
        (some "Dana D") (some "pw12345") none 1 401 "222222" true).1.otps =
      dbStale.otps ++ [otpCreate 401 "dana@example.com" "222222" .email_verification (some 1) 5] := by
  constructor
  · exact otp_supersede_amended.1 dbOtp 3 "carol@example.com" 301 "654321" true
      carolUser rfl (by decide) (by decide)
  · exact otp_supersede_amended.2.2 dbStale 5 "dana" "dana@example.com" "Dana D"
      "pw12345" none 1 401 "222222" true rfl rfl rfl rfl (by decide) (by decide)

/-- C6: a login that resolves to an unverified account never returns tokens:
it fails with the 403 EmailNotVerified error, makes exactly one delivery
attempt, leaves every user document untouched, replaces the (at most one)
prior live code with exactly one fresh verification code, and its entire
result is the same whatever the delivery outcome. -/
theorem login_unverified_never_tokens (db : DB) (env : Env) (now : Nat)
    (userName email password : Option String) (fid : Nat) (code : String)
    (sent sent2 : Bool) (u : UserDoc)
    (hresolve : loginResolve db userName email = some u)
    (hpw : jsTruthyStr password = true)
    (hunv : u.emailVerified = false)
    (hone : (db.otps.filter (otpMatches u.email .email_verification)).length ≤ 1) :
    (loginUser db env now userName email password fid code sent).outcome =
      .error ⟨403, "Email not verified. New verification OTP has been sent."⟩
    ∧ (loginUser db env now userName email password fid code sent).otpEmailsSent = 1
    ∧ (loginUser db env now userName email password fid code sent).db.users = db.users
    ∧ ((loginUser db env now userName email password fid code sent).db.otps.filter
        (otpMatches u.email .email_verification)) =
      [otpCreate fid u.email code .email_verification (some u.id) now]
    ∧ loginUser db env now userName email password fid code sent =
      loginUser db env now userName email password fid code sent2 := by
  rw [loginUser_unverified_eq db env now userName email password fid code sent u
      hresolve hpw hunv,
    loginUser_unverified_eq db env now userName email password fid code sent2 u
      hresolve hpw hunv]
  refine ⟨rfl, rfl, rfl, ?_, rfl⟩
  show ((eraseFirst (otpMatches u.email .email_verification) db.otps)
      ++ [otpCreate fid u.email code .email_verification (some u.id) now]).filter
        (otpMatches u.email .email_verification) = _
  rw [List.filter_append, filter_eraseFirst_of_le_one _ _ hone]
  simp [otpMatches, otpCreate]

/-- C6 witness: logging in as unverified Carol with a wrong password and a
failed delivery still yields the 403, one delivery attempt, an untouched
user list, exactly the fresh code, and the same result as with a successful
delivery. -/
theorem login_unverified_never_tokens_witness :
    (loginUser dbOtp envA 4 none (some "carol@example.com") (some "wrongpass")
        302 "999999" false).outcome =
      .error ⟨403, "Email not verified. New verification OTP has been sent."⟩
    ∧ (loginUser dbOtp envA 4 none (some "carol@example.com") (some "wrongpass")
        302 "999999" false).otpEmailsSent = 1
    ∧ (loginUser dbOtp envA 4 none (some "carol@example.com") (some "wrongpass")
        302 "999999" false).db.users = dbOtp.users
    ∧ ((loginUser dbOtp envA 4 none (some "carol@example.com") (some "wrongpass")
        302 "999999" false).db.otps.filter
          (otpMatches "carol@example.com" .email_verification)) =
      [otpCreate 302 "carol@example.com" "999999" .email_verification (some 9) 4]
    ∧ loginUser dbOtp envA 4 none (some "carol@example.com") (some "wrongpass")
        302 "999999" false =
      loginUser dbOtp envA 4 none (some "carol@example.com") (some "wrongpass")
        302 "999999" true := by
  exact login_unverified_never_tokens dbOtp envA 4 none (some "carol@example.com")
    (some "wrongpass") 302 "999999" false true carolUser (by decide) rfl
    (by decide) (by decide)

/-- C10: the password comparison of `loginUser` is reached only when the
resolved account is verified; for an unverified account the OTP issuance and
the delivery attempt happen and the whole result — including the side
effects — does not depend on which password was supplied. -/
theorem login_otp_before_password_check :
    (∀ db env now userName email password fid code sent,
      (loginUser db env now userName email password fid code sent).passwordChecked = true →
      ∃ u, loginResolve db userName email = some u ∧ u.emailVerified = true)
    ∧ (∀ db env now userName email p1 p2 fid code sent u,
      loginResolve db userName email = some u → u.emailVerified = false →
      jsTruthyStr p1 = true → jsTruthyStr p2 = true →
      loginUser db env now userName email p1 fid code sent =
        loginUser db env now userName email p2 fid code sent
      ∧ (loginUser db env now userName email p1 fid code sent).otpEmailsSent = 1
      ∧ (loginUser db env now userName email p1 fid code sent).passwordChecked = false
      ∧ otpCreate fid u.email code .email_verification (some u.id) now ∈
          (loginUser db env now userName email p1 fid code sent).db.otps) := by
  constructor
  · intro db env now userName email password fid code sent hchecked
    by_cases hguard : ((!jsTruthyStr userName && !jsTruthyStr email)
        || !jsTruthyStr password) = true
    · rw [show loginUser db env now userName email password fid code sent =
          ⟨db, 0, false, .error ⟨400, "Email/Username and password are required"⟩⟩ from by
        simp [loginUser, hguard]] at hchecked
      cases hchecked
    · have hguard2 : ((!jsTruthyStr userName && !jsTruthyStr email)
          || !jsTruthyStr password) = false := by
        cases hval : ((!jsTruthyStr userName && !jsTruthyStr email)
            || !jsTruthyStr password)
        · rfl
        · exact absurd hval hguard
      cases hres : loginResolve db userName email with
      | none =>
        rw [show loginUser db env now userName email password fid code sent =
            ⟨db, 0, false, .error ⟨404, "User not found"⟩⟩ from by
          simp [loginUser, hguard2, hres]] at hchecked
        cases hchecked
      | some u =>
        cases hver : u.emailVerified with
        | false =>
          have hpw : jsTruthyStr password = true := by
            cases hjt : jsTruthyStr password
            · rw [hjt] at hguard2
              simp at hguard2
            · rfl
          rw [loginUser_unverified_eq db env now userName email password fid code
            sent u hres hpw hver] at hchecked
          cases hchecked
        | true => exact ⟨u, rfl, hver⟩
  · intro db env now userName email p1 p2 fid code sent u hres hver hp1 hp2
    rw [loginUser_unverified_eq db env now userName email p1 fid code sent u
        hres hp1 hver,
      loginUser_unverified_eq db env now userName email p2 fid code sent u
        hres hp2 hver]
    refine ⟨rfl, rfl, rfl, ?_⟩
    exact List.mem_append_right _ (List.mem_singleton.mpr rfl)

/-- C10 witness: for unverified Carol, logging in with a wrong password and
with the correct password produce identical results — one delivery attempt
and a fresh code, with the password never checked. -/
theorem login_otp_before_password_check_witness :
    loginUser dbOtp envA 4 none (some "carol@example.com") (some "wrongpass")
        302 "999999" true =
      loginUser dbOtp envA 4 none (some "carol@example.com") (some "secret99")
        302 "999999" true
    ∧ (loginUser dbOtp envA 4 none (some "carol@example.com") (some "wrongpass")
        302 "999999" true).otpEmailsSent = 1
    ∧ (loginUser dbOtp envA 4 none (some "carol@example.com") (some "wrongpass")
        302 "999999" true).passwordChecked = false
    ∧ otpCreate 302 "carol@example.com" "999999" .email_verification (some 9) 4 ∈
        (loginUser dbOtp envA 4 none (some "carol@example.com") (some "wrongpass")
          302 "999999" true).db.otps := by
  exact login_otp_before_password_check.2 dbOtp envA 4 none
    (some "carol@example.com") (some "wrongpass") (some "secret99") 302 "999999"
    true carolUser (by decide) (by decide) rfl rfl

/-- C7: for an open, non-past event, an account that is already a solo
registrant or already the leader or a member of some team of the event is
rejected with a 400 by both solo registration (when the team-only gate does
not fire first) and team join; both handlers throw before their transaction
starts, so the store is unchanged (the embedded error carries no store).  -/
theorem already_registered_rejected (db : DB) (eventId userId : Nat)
    (event : EventDoc)
    (hev : findEventById db eventId = some event)
    (hreg : event.registration = true)
    (hpast : event.status ≠ EventStatus.past)
    (halready : event.registeredUsers.contains userId = true ∨
      (userTeamForEvent db eventId userId).isSome = true) :
    ((event.teamRegistration && event.registeredUsers.isEmpty
        && decide (1 < event.minTeamSize)) = false →
      ∃ msg, registerForEvent db (some eventId) userId = .error ⟨400, msg⟩)
    ∧ (∀ teamId team, findTeamById db teamId = some team → team.event = eventId →
        db.teams.Pairwise (fun a b => a.id ≠ b.id) →
        ∃ msg, joinTeam db teamId userId = .error ⟨400, msg⟩) := by
  have hpastF : (event.status == EventStatus.past) = false :=
    beq_eq_false_iff_ne.mpr hpast
  constructor
  · intro hgate
    cases hc : event.registeredUsers.contains userId with
    | true =>
      have hcm : userId ∈ event.registeredUsers := by simpa using hc
      exact ⟨"User is already registered for this event",
        by simp [registerForEvent, hev, hreg, hpastF, hgate, hcm]⟩
    | false =>
      have hcm : userId ∉ event.registeredUsers := by simpa using hc
      have ht : (userTeamForEvent db eventId userId).isSome = true := by
        rcases halready with h | h
        · rw [hc] at h
          cases h
        · exact h
      exact ⟨"User is already part of a team for this event",
        by simp [registerForEvent, hev, hreg, hpastF, hgate, hcm, ht]⟩
  · intro teamId team hteam hteamev hteamids
    have hevid : event.id = eventId := by
      have h2 : db.events.find? (fun e => e.id == eventId) = some event := hev
      have h3 := List.find?_some h2
      simp only [beq_iff_eq] at h3
      exact h3
    have hev2 : findEventById db team.event = some event := by
      rw [hteamev]
      exact hev
    cases hc : event.registeredUsers.contains userId with
    | true =>
      have hcm : userId ∈ event.registeredUsers := by simpa using hc
      exact ⟨"User is already registered for this event as solo participant",
        by simp [joinTeam, hteam, hev2, hreg, hpastF, hcm]⟩
    | false =>
      have hcm : userId ∉ event.registeredUsers := by simpa using hc
      have ht : (userTeamForEvent db eventId userId).isSome = true := by
        rcases halready with h | h
        · rw [hc] at h
          cases h
        · exact h
      rcases Option.isSome_iff_exists.mp ht with ⟨t, htfind⟩
      have htmem : t ∈ db.teams := List.mem_of_find?_eq_some htfind
      have htprop := List.find?_some htfind
      have htprop2 : (t.event == eventId) = true
          ∧ (t.teamLeader == userId || t.teamMembers.contains userId) = true := by
        have h4 := htprop
        simp only [Bool.and_eq_true] at h4
        exact h4
      cases hmem : (team.teamLeader == userId || team.teamMembers.contains userId) with
      | true =>
        have hmemP : team.teamLeader = userId ∨ userId ∈ team.teamMembers := by
          simpa using hmem
        exact ⟨"User is already part of this team",
          by simp [joinTeam, hteam, hev2, hreg, hpastF, hcm, hmemP]⟩
      | false =>
        have hmemP1 : ¬team.teamLeader = userId := by
          have h4 := Bool.or_eq_false_iff.mp hmem
          exact beq_eq_false_iff_ne.mp h4.1
        have hmemP2 : userId ∉ team.teamMembers := by
          have h4 := Bool.or_eq_false_iff.mp hmem
          simpa using h4.2
        have hteamid : team.id = teamId := by
          have h2 : db.teams.find? (fun x => x.id == teamId) = some team := hteam
          have h3 := List.find?_some h2
          simp only [beq_iff_eq] at h3
          exact h3
        have htne : t.id ≠ teamId := by
          intro hid
          have hteammem : team ∈ db.teams := List.mem_of_find?_eq_some hteam
          have h5 : t = team := eq_of_key_eq TeamDoc.id db.teams hteamids t team
            htmem hteammem (by rw [hid, hteamid])
          rw [h5] at htprop2
          rw [hmem] at htprop2
          cases htprop2.2
        have hother : (otherTeamForEvent db event.id teamId userId).isSome = true := by
          have h6 : ((fun x : TeamDoc => x.event == event.id && x.id != teamId
              && (x.teamLeader == userId || x.teamMembers.contains userId)) t) = true := by
            show (t.event == event.id && t.id != teamId
              && (t.teamLeader == userId || t.teamMembers.contains userId)) = true
            have h1 : (t.event == event.id) = true := by
              rw [hevid]
              exact htprop2.1
            have h2 : (t.id != teamId) = true := bne_iff_ne.mpr htne
            rw [h1, h2, htprop2.2]
            rfl
          show (db.teams.find? (fun x => x.event == event.id && x.id != teamId
            && (x.teamLeader == userId || x.teamMembers.contains userId))).isSome = true
          rw [List.find?_isSome]
          exact ⟨t, htmem, h6⟩
        exact ⟨"User is already part of another team for this event",
          by simp [joinTeam, hteam, hev2, hreg, hpastF, hcm, hmemP1, hmemP2, hother]⟩

/-- C7 witness: the existing solo registrant is rejected from solo
registration, and the existing team member is rejected from joining the
team again. -/
theorem already_registered_rejected_witness :
    (∃ msg, registerForEvent dbEvents (some 1) 10 = .error ⟨400, msg⟩)
    ∧ (∃ msg, joinTeam dbEvents 20 12 = .error ⟨400, msg⟩) := by
  constructor
  · exact (already_registered_rejected dbEvents 1 10 eventE1 (by decide) (by decide)
      (by decide) (Or.inl (by decide))).1 (by decide)
  · exact (already_registered_rejected dbEvents 1 12 eventE1 (by decide) (by decide)
      (by decide) (Or.inr (by decide))).2 20 teamT20 (by decide) (by decide)
      (by decide)

/-- C8 counterexample: on an open team event whose participant cap
(maxParticipants = 1) is already reached by a solo registrant, creating a
team succeeds — neither team creation nor team join checks maxParticipants —
and the total participant count rises to 2, exceeding the cap. -/
theorem createTeam_exceeds_maxParticipants :
    ((createTeam dbCap (some 2) (some "Giants") 20 50).toOption.map
        (fun out => participantCount out.1 2)) = some 2
    ∧ (findEventById dbCap 2).bind (fun e => e.maxParticipants) = some 1 := by
  exact ⟨rfl, rfl⟩

/-- C8 amended: solo registration preserves the participant cap (it rejects
once solo plus team head-count reaches maxParticipants) and team creation
preserves the team cap (it rejects once the team count reaches maxTeams),
both caps being checked only when set and nonzero; but team creation and
team join never check maxParticipants, so those operations can push the
total participant count past it. -/
theorem capacity_checks_amended :
    (∀ db eventId userId dbAfter event m,
      findEventById db eventId = some event →
      event.maxParticipants = some m → m ≠ 0 →
      registerForEvent db (some eventId) userId = .ok dbAfter →
      participantCount dbAfter eventId ≤ m)
    ∧ (∀ db eventId teamName userId ftid out event k,
      findEventById db eventId = some event →
      event.maxTeams = some k → k ≠ 0 →
      createTeam db (some eventId) (some teamName) userId ftid = .ok out →
      ∀ event2, findEventById out.1 eventId = some event2 →
        event2.teams.length ≤ k) := by
  constructor
  · intro db eventId userId dbAfter event m hev hmax hm0 hsucc
    cases hreg : event.registration with
    | false =>
      rw [show registerForEvent db (some eventId) userId =
          .error ⟨400, "Registration is not open for this event"⟩ from by
        simp [registerForEvent, hev, hreg]] at hsucc
      cases hsucc
    | true =>
    cases hpast : event.status == EventStatus.past with
    | true =>
      rw [show registerForEvent db (some eventId) userId =
          .error ⟨400, "Cannot register for past events"⟩ from by
        simp [registerForEvent, hev, hreg, hpast]] at hsucc
      cases hsucc
    | false =>
    cases hgate : (event.teamRegistration && event.registeredUsers.isEmpty
        && decide (1 < event.minTeamSize)) with
    | true =>
      rw [show registerForEvent db (some eventId) userId =
          .error ⟨400, "This event requires team registration"⟩ from by
        simp [registerForEvent, hev, hreg, hpast, hgate]] at hsucc
      cases hsucc
    | false =>
    by_cases hcm : userId ∈ event.registeredUsers
    · rw [show registerForEvent db (some eventId) userId =
          .error ⟨400, "User is already registered for this event"⟩ from by
        simp [registerForEvent, hev, hreg, hpast, hgate, hcm]] at hsucc
      cases hsucc
    cases ht : (userTeamForEvent db eventId userId).isSome with
    | true =>
      rw [show registerForEvent db (some eventId) userId =
          .error ⟨400, "User is already part of a team for this event"⟩ from by
        simp [registerForEvent, hev, hreg, hpast, hgate, hcm, ht]] at hsucc
      cases hsucc
    | false =>
    have hm0b : (m != 0) = true := bne_iff_ne.mpr hm0
    by_cases hcap : m ≤ event.registeredUsers.length + teamParticipantCount db eventId
    · rw [show registerForEvent db (some eventId) userId =
          .error ⟨400, "Maximum number of participants reached"⟩ from by
        simp [registerForEvent, hev, hreg, hpast, hgate, hcm, ht, hmax,
          jsTruthyNat, hm0b, hcap]] at hsucc
      cases hsucc
    have hred : registerForEvent db (some eventId) userId =
        .ok (registerSoloCommit db eventId userId) := by
      simp [registerForEvent, hev, hreg, hpast, hgate, hcm, ht, hmax,
        jsTruthyNat, hm0b, hcap]
    rw [hred] at hsucc
    have hdb : registerSoloCommit db eventId userId = dbAfter := Except.ok.inj hsucc
    rw [← hdb]
    have hfind2 : findEventById (registerSoloCommit db eventId userId) eventId =
        some { event with registeredUsers := event.registeredUsers ++ [userId] } := by
      show (updateFirst (fun e => e.id == eventId)
          (fun e => { e with registeredUsers := e.registeredUsers ++ [userId] })
          db.events).find? (fun e => e.id == eventId) = _
      have h2 : db.events.find? (fun e => e.id == eventId) = some event := hev
      rw [find?_updateFirst_map _ _ db.events (fun a ha => by
        show ((({ a with registeredUsers := a.registeredUsers ++ [userId] }
          : EventDoc)).id == eventId) = true
        exact ha), h2]
      rfl
    have hteams : teamParticipantCount (registerSoloCommit db eventId userId) eventId
        = teamParticipantCount db eventId := rfl
    have hcount : participantCount (registerSoloCommit db eventId userId) eventId =
        event.registeredUsers.length + 1 + teamParticipantCount db eventId := by
      simp [participantCount, hfind2, hteams]
    omega
  · intro db eventId teamName userId ftid out event k hev hmax hk0 hsucc
    cases htr : event.teamRegistration with
    | false =>
      rw [show createTeam db (some eventId) (some teamName) userId ftid =
          .error ⟨400, "Team registration is not allowed for this event"⟩ from by
        simp [createTeam, hev, htr]] at hsucc
      cases hsucc
    | true =>
    cases hreg : event.registration with
    | false =>
      rw [show createTeam db (some eventId) (some teamName) userId ftid =
          .error ⟨400, "Registration is not open for this event"⟩ from by
        simp [createTeam, hev, htr, hreg]] at hsucc
      cases hsucc
    | true =>
    cases hpast : event.status == EventStatus.past with
    | true =>
      rw [show createTeam db (some eventId) (some teamName) userId ftid =
          .error ⟨400, "Cannot register for past events"⟩ from by
        simp [createTeam, hev, htr, hreg, hpast]] at hsucc
      cases hsucc
    | false =>
    by_cases hcm : userId ∈ event.registeredUsers
    · rw [show createTeam db (some eventId) (some teamName) userId ftid =
          .error ⟨400, "User is already registered for this event as solo participant"⟩ from by
        simp [createTeam, hev, htr, hreg, hpast, hcm]] at hsucc
      cases hsucc
    cases ht : (userTeamForEvent db eventId userId).isSome with
    | true =>
      rw [show createTeam db (some eventId) (some teamName) userId ftid =
          .error ⟨400, "User is already part of a team for this event"⟩ from by
        simp [createTeam, hev, htr, hreg, hpast, hcm, ht]] at hsucc
      cases hsucc
    | false =>
    have hk0b : (k != 0) = true := bne_iff_ne.mpr hk0
    by_cases hcap : k ≤ event.teams.length
    · rw [show createTeam db (some eventId) (some teamName) userId ftid =
          .error ⟨400, "Maximum number of teams reached for this event"⟩ from by
        simp [createTeam, hev, htr, hreg, hpast, hcm, ht, hmax,
          jsTruthyNat, hk0b, hcap]] at hsucc
      cases hsucc
    cases hdup : (teamNameTaken db eventId teamName).isSome with
    | true =>
      rw [show createTeam db (some eventId) (some teamName) userId ftid =
          .error ⟨409, "Team name already exists for this event"⟩ from by
        simp [createTeam, hev, htr, hreg, hpast, hcm, ht, hmax,
          jsTruthyNat, hk0b, hcap, hdup]] at hsucc
      cases hsucc
    | false =>
    have hred : createTeam db (some eventId) (some teamName) userId ftid =
        .ok (createTeamCommit db
          { id := ftid, teamName := teamName, teamLeader := userId,
            teamMembers := [], event := eventId },
          { id := ftid, teamName := teamName, teamLeader := userId,
            teamMembers := [], event := eventId }) := by
      simp [createTeam, hev, htr, hreg, hpast, hcm, ht, hmax,
        jsTruthyNat, hk0b, hcap, hdup]
    rw [hred] at hsucc
    have hout := Except.ok.inj hsucc
    intro event2 hfind2
    have hfind3 : findEventById (createTeamCommit db
        ({ id := ftid, teamName := teamName, teamLeader := userId,
           teamMembers := [], event := eventId } : TeamDoc)) eventId =
        some { event with teams := event.teams ++ [ftid] } := by
      show (updateFirst (fun e => e.id == eventId)
          (fun e => { e with teams := e.teams ++ [ftid] })
          db.events).find? (fun e => e.id == eventId) = _
      have h2 : db.events.find? (fun e => e.id == eventId) = some event := hev
      rw [find?_updateFirst_map _ _ db.events (fun a ha => by
        show ((({ a with teams := a.teams ++ [ftid] } : EventDoc)).id == eventId) = true
        exact ha), h2]
      rfl
    have hfind2b : findEventById (createTeamCommit db
        ({ id := ftid, teamName := teamName, teamLeader := userId,
           teamMembers := [], event := eventId } : TeamDoc)) eventId = some event2 := by
      rw [← hout] at hfind2
      exact hfind2
    rw [hfind3] at hfind2b
    have hev2 : event2 = { event with teams := event.teams ++ [ftid] } :=
      (Option.some.inj hfind2b).symm
    rw [hev2]
    show (event.teams ++ [ftid]).length ≤ k
    rw [List.length_append]
    simp only [List.length_singleton]
    omega

/-- C8 amended witness: a successful solo registration on the
two-participant event stays within the cap. -/
theorem capacity_checks_amended_witness :
    registerForEvent dbCap2 (some 3) 11 = .ok (registerSoloCommit dbCap2 3 11)
    ∧ participantCount (registerSoloCommit dbCap2 3 11) 3 ≤ 2 := by
  constructor
  · rfl
  · exact capacity_checks_amended.1 dbCap2 3 11 (registerSoloCommit dbCap2 3 11)
      eventCap2 2 (by decide) rfl (by decide) rfl

/-- C9: when the team leader leaves, the whole team is disbanded in the one
transaction `disbandTeamCommit`: the team record is gone, the team is pulled
from the event, every member of the team (leader included) loses exactly the
event entry from their registered events, other accounts are untouched, and
other collections are untouched; when a non-leader member leaves, only that
member is pulled from the team and only their own registered-events entry is
cleared, with every other user, team and event record unchanged. -/
theorem leaveTeam_disband_or_remove (db : DB) (teamId userId : Nat)
    (team : TeamDoc) (event : EventDoc)
    (hteam : findTeamById db teamId = some team)
    (hev : findEventById db team.event = some event)
    (hteamids : db.teams.Pairwise (fun a b => a.id ≠ b.id)) :
    (team.teamLeader = userId →
      leaveTeam db teamId userId =
        .ok (disbandTeamCommit db team teamId event.id, "Team disbanded successfully")
      ∧ findTeamById (disbandTeamCommit db team teamId event.id) teamId = none
      ∧ findEventById (disbandTeamCommit db team teamId event.id) event.id =
          some { event with teams := event.teams.filter (fun t => t != teamId) }
      ∧ teamId ∉ event.teams.filter (fun t => t != teamId)
      ∧ (∀ uid, (team.teamLeader :: team.teamMembers).contains uid = true →
          findUserById (disbandTeamCommit db team teamId event.id) uid =
            (findUserById db uid).map (fun u =>
              { u with registeredEvents :=
                  u.registeredEvents.filter (fun e => e != event.id) }))
      ∧ (∀ uid, (team.teamLeader :: team.teamMembers).contains uid = false →
          findUserById (disbandTeamCommit db team teamId event.id) uid =
            findUserById db uid)
      ∧ (disbandTeamCommit db team teamId event.id).otps = db.otps)
    ∧ (team.teamLeader ≠ userId → userId ∈ team.teamMembers →
      leaveTeam db teamId userId =
        .ok (leaveMemberCommit db teamId userId event.id, "Left team successfully")
      ∧ findTeamById (leaveMemberCommit db teamId userId event.id) teamId =
          some { team with teamMembers :=
            team.teamMembers.filter (fun m => m != userId) }
      ∧ userId ∉ team.teamMembers.filter (fun m => m != userId)
      ∧ findUserById (leaveMemberCommit db teamId userId event.id) userId =
          (findUserById db userId).map (fun u =>
            { u with registeredEvents :=
                u.registeredEvents.filter (fun e => e != event.id) })
      ∧ (∀ uid, uid ≠ userId →
          findUserById (leaveMemberCommit db teamId userId event.id) uid =
            findUserById db uid)
      ∧ (∀ tid, tid ≠ teamId →
          findTeamById (leaveMemberCommit db teamId userId event.id) tid =
            findTeamById db tid)
      ∧ (leaveMemberCommit db teamId userId event.id).events = db.events) := by
  have hevid : event.id = team.event := by
    have h2 : db.events.find? (fun e => e.id == team.event) = some event := hev
    have h3 := List.find?_some h2
    simp only [beq_iff_eq] at h3
    exact h3
  have hev3 : db.events.find? (fun e => e.id == event.id) = some event := by
    rw [hevid]
    exact hev
  constructor
  · intro hlead
    have hleadb : (team.teamLeader == userId) = true := beq_iff_eq.mpr hlead
    refine ⟨?_, ?_, ?_, ?_, ?_, ?_, rfl⟩
    · simp [leaveTeam, hteam, hev, hleadb]
    · show (eraseFirst (fun t => t.id == teamId) db.teams).find?
        (fun t => t.id == teamId) = none
      exact find?_eq_none_of_filter_eq_nil _ _ (filter_eraseFirst_of_le_one _ _
        (filter_key_length_le_one TeamDoc.id teamId db.teams hteamids))
    · show (updateFirst (fun e => e.id == event.id)
          (fun e => { e with teams := e.teams.filter (fun t => t != teamId) })
          db.events).find? (fun e => e.id == event.id) = _
      rw [find?_updateFirst_map _ _ db.events (fun a ha => by
        show ((({ a with teams := a.teams.filter (fun t => t != teamId) }
          : EventDoc)).id == event.id) = true
        exact ha), hev3]
      rfl
    · simp
    · intro uid hcontains
      show (db.users.map (fun u =>
          if (team.teamLeader :: team.teamMembers).contains u.id then
            { u with registeredEvents :=
                u.registeredEvents.filter (fun e => e != event.id) }
          else u)).find? (fun u => u.id == uid) =
        (db.users.find? (fun u => u.id == uid)).map (fun u =>
          { u with registeredEvents :=
              u.registeredEvents.filter (fun e => e != event.id) })
      rw [find?_listMap _ _ db.users (fun a => by
        cases hca : (team.teamLeader :: team.teamMembers).contains a.id <;>
          simp [hca])]
      cases hfu : db.users.find? (fun u => u.id == uid) with
      | none => rfl
      | some u =>
        have huid : u.id = uid := by
          have h3 := List.find?_some hfu
          simp only [beq_iff_eq] at h3
          exact h3
        have hcP : uid = team.teamLeader ∨ uid ∈ team.teamMembers := by
          simpa using hcontains
        simp [huid, hcP]
    · intro uid hcontains
      show (db.users.map (fun u =>
          if (team.teamLeader :: team.teamMembers).contains u.id then
            { u with registeredEvents :=
                u.registeredEvents.filter (fun e => e != event.id) }
          else u)).find? (fun u => u.id == uid) =
        db.users.find? (fun u => u.id == uid)
      rw [find?_listMap _ _ db.users (fun a => by
        cases hca : (team.teamLeader :: team.teamMembers).contains a.id <;>
          simp [hca])]
      cases hfu : db.users.find? (fun u => u.id == uid) with
      | none => rfl
      | some u =>
        have huid : u.id = uid := by
          have h3 := List.find?_some hfu
          simp only [beq_iff_eq] at h3
          exact h3
        have hcP : ¬uid = team.teamLeader ∧ uid ∉ team.teamMembers := by
          simpa using hcontains
        simp [huid, hcP.1, hcP.2]
  · intro hlead hmem
    have hleadb : (team.teamLeader == userId) = false := beq_eq_false_iff_ne.mpr hlead
    have hmemb : team.teamMembers.contains userId = true := by simpa using hmem
    refine ⟨?_, ?_, ?_, ?_, ?_, ?_, rfl⟩
    · simp [leaveTeam, hteam, hev, hleadb, hmemb, hmem]
    · show (updateFirst (fun t => t.id == teamId)
          (fun t => { t with teamMembers :=
            t.teamMembers.filter (fun m => m != userId) })
          db.teams).find? (fun t => t.id == teamId) = _
      have h2 : db.teams.find? (fun t => t.id == teamId) = some team := hteam
      rw [find?_updateFirst_map _ _ db.teams (fun a ha => by
        show ((({ a with teamMembers :=
          a.teamMembers.filter (fun m => m != userId) } : TeamDoc)).id == teamId) = true
        exact ha), h2]
      rfl
    · simp
    · show (updateFirst (fun u => u.id == userId)
          (fun u => { u with registeredEvents :=
            u.registeredEvents.filter (fun e => e != event.id) })
          db.users).find? (fun u => u.id == userId) = _
      rw [find?_updateFirst_map _ _ db.users (fun a ha => by
        show ((({ a with registeredEvents :=
          a.registeredEvents.filter (fun e => e != event.id) } : UserDoc)).id
            == userId) = true
        exact ha)]
      rfl
    · intro uid huid
      show (updateFirst (fun u => u.id == userId)
          (fun u => { u with registeredEvents :=
            u.registeredEvents.filter (fun e => e != event.id) })
          db.users).find? (fun u => u.id == uid) = _
      rw [find?_updateFirst_disjoint _ _ _ db.users
        (fun a ha => by
          have ha2 : a.id = uid := by
            simpa using ha
          rw [beq_eq_false_iff_ne]
          rw [ha2]
          exact huid)
        (fun a ha => by
          have ha2 : a.id = userId := by
            simpa using ha
          show ((({ a with registeredEvents :=
            a.registeredEvents.filter (fun e => e != event.id) } : UserDoc)).id
              == uid) = false
          rw [beq_eq_false_iff_ne]
          show a.id ≠ uid
          rw [ha2]
          exact fun h => huid h.symm)]
      rfl
    · intro tid htid
      show (updateFirst (fun t => t.id == teamId)
          (fun t => { t with teamMembers :=
            t.teamMembers.filter (fun m => m != userId) })
          db.teams).find? (fun t => t.id == tid) = _
      rw [find?_updateFirst_disjoint _ _ _ db.teams
        (fun a ha => by
          have ha2 : a.id = tid := by
            simpa using ha
          rw [beq_eq_false_iff_ne]
          rw [ha2]
          exact htid)
        (fun a ha => by
          have ha2 : a.id = teamId := by
            simpa using ha
          show ((({ a with teamMembers :=
            a.teamMembers.filter (fun m => m != userId) } : TeamDoc)).id
              == tid) = false
          rw [beq_eq_false_iff_ne]
          show a.id ≠ tid
          rw [ha2]
          exact fun h => htid h.symm)]
      rfl

/-- C9 witness: on the sample store, the leader leaving disbands team 20 and
clears the member's registered events, while the member leaving removes only
that member and leaves the leader's account untouched. -/
theorem leaveTeam_disband_or_remove_witness :
    leaveTeam dbEvents 20 11 =
      .ok (disbandTeamCommit dbEvents teamT20 20 1, "Team disbanded successfully")
    ∧ findTeamById (disbandTeamCommit dbEvents teamT20 20 1) 20 = none
    ∧ findUserById (disbandTeamCommit dbEvents teamT20 20 1) 12 =
        some { memberUser with registeredEvents := [] }
    ∧ leaveTeam dbEvents 20 12 =
        .ok (leaveMemberCommit dbEvents 20 12 1, "Left team successfully")
    ∧ findTeamById (leaveMemberCommit dbEvents 20 12 1) 20 =
        some { teamT20 with teamMembers := [] }
    ∧ findUserById (leaveMemberCommit dbEvents 20 12 1) 11 =
        findUserById dbEvents 11 := by
  have h1 := (leaveTeam_disband_or_remove dbEvents 20 11 teamT20 eventE1
    (by decide) (by decide) (by decide)).1 rfl
  have h2 := (leaveTeam_disband_or_remove dbEvents 20 12 teamT20 eventE1
    (by decide) (by decide) (by decide)).2 (by decide) (by decide)
  rw [show eventE1.id = 1 from rfl] at h1 h2
  refine ⟨h1.1, h1.2.1, ?_, h2.1, ?_, ?_⟩
  · rw [h1.2.2.2.2.1 12 (by decide)]
    decide
  · rw [h2.2.1]
    decide
  · exact h2.2.2.2.2.1 11 (by decide)

end KGTS
